import Mathlib

/-!
Verification of `python_audio_ffmpeg.py` (functions `get_format`, `audio_ffmpeg`,
`audio_atempo`, `audio_trim`) against its natural-language specification.

The Python module is embedded shallowly:

* numpy dtypes become the finite enumeration `Dtype` (the five supported dtypes
  plus representative unsupported ones);
* sample values are modelled as exact rationals `ℚ`; float rounding performed by
  numpy conversions is abstracted away (no claim below depends on rounding);
* `numpy.ndarray` becomes `PyArr`: an object identity `id`, the identity `base`
  of the buffer owning the underlying memory (views share `base`), a dtype and
  the element data;
* the spawned ffmpeg subprocess is an explicit behaviour oracle `ProcBehavior`
  (it timed out, or it completed with an exit status, an optional stdout sample
  stream and a stderr text).  `stdout` is modelled directly as the list of
  samples obtained by `numpy.fromstring(stdout_bytes, dtype=array.dtype)`, so
  byte-level serialisation is abstracted;
* `audio_ffmpeg` becomes a pure function from its arguments and the oracle to a
  `RunTrace` recording whether a subprocess was spawned, the command line built,
  whether the process was killed and its pipes drained after a timeout, the base
  identities of every buffer written in place, and the final result
  (`Except PyErr PyArr`, errors mirroring the Python exceptions raised).
-/

namespace PyAudioFFmpeg

/-- Python exceptions raised by the module: `RuntimeError`, `TypeError`,
numpy's `ValueError` (reshape failure) and `NameError` (read of an undefined
variable name). -/
inductive PyErr where
  | runtimeError (mes : String)
  | typeError (mes : String)
  | valueError (mes : String)
  | nameError (name : String)
  deriving DecidableEq, Repr

instance {ε α : Type} [DecidableEq ε] [DecidableEq α] : DecidableEq (Except ε α)
  | .error x, .error y =>
      if h : x = y then .isTrue (by rw [h])
      else .isFalse (by intro hh; injection hh; contradiction)
  | .error _, .ok _ => .isFalse (by intro hh; exact Except.noConfusion hh)
  | .ok _, .error _ => .isFalse (by intro hh; exact Except.noConfusion hh)
  | .ok x, .ok y =>
      if h : x = y then .isTrue (by rw [h])
      else .isFalse (by intro hh; injection hh; contradiction)

/-- numpy element types: the five supported by the module, plus representative
unsupported ones (`numpy.dtype(str)`, written `unicode` here, is what source
line 72 produces for a string `out_type` argument). -/
inductive Dtype where
  | float64 | float32 | float16
  | int64 | int32 | int16 | int8
  | uint64 | uint32 | uint16 | uint8
  | boolT | unicode
  deriving DecidableEq, Repr, Fintype

/-- `numpy.dtype.kind`: `f` float, `i` signed int, `u` unsigned int,
`b` boolean, `U` unicode string. -/
def Dtype.kind : Dtype → Char
  | .float64 | .float32 | .float16 => 'f'
  | .int64 | .int32 | .int16 | .int8 => 'i'
  | .uint64 | .uint32 | .uint16 | .uint8 => 'u'
  | .boolT => 'b'
  | .unicode => 'U'

/-- `str(dtype)` as interpolated into the error message of `get_format`. -/
def dtypeName : Dtype → String
  | .float64 => "float64"
  | .float32 => "float32"
  | .float16 => "float16"
  | .int64 => "int64"
  | .int32 => "int32"
  | .int16 => "int16"
  | .int8 => "int8"
  | .uint64 => "uint64"
  | .uint32 => "uint32"
  | .uint16 => "uint16"
  | .uint8 => "uint8"
  | .boolT => "bool"
  | .unicode => "<U"

/-- Source lines 16-21: the fixed ordered table of (dtype, raw-format tag). -/
def format_strings : List (Dtype × String) :=
  [(.float64, "f64le"), (.float32, "f32le"), (.int16, "s16le"),
   (.int32, "s32le"), (.uint32, "u32le")]

/-- Source lines 15-25, `get_format`: scan the table for the first matching
dtype and return its tag; otherwise raise
`RuntimeError(f-string of the unsupported dtype)`. -/
def get_format (in_type : Dtype) : Except PyErr String :=
  match format_strings.lookup in_type with
  | some s => .ok s
  | none => .error (.runtimeError ("Not supported type: " ++ dtypeName in_type))

/-- Truncation toward zero, as C/numpy float-to-int conversion does. -/
def truncToward0 (q : ℚ) : Int := q.num.tdiv q.den

/-- Two's-complement wrap of an integer into `w` signed bits. -/
def signedWrap (w : Nat) (n : Int) : Int :=
  (n + 2 ^ (w - 1)) % 2 ^ w - 2 ^ (w - 1)

/-- Wrap of an integer into `w` unsigned bits. -/
def unsignedWrap (w : Nat) (n : Int) : Int := n % 2 ^ w

/-- Element-wise conversion performed by `ndarray.astype` (source line 114).
Conversions to float dtypes keep the exact value (float rounding abstracted);
conversions to integer dtypes truncate toward zero and wrap; conversion to the
string dtype keeps the numeric value (its textual formatting is abstracted). -/
def astypeVal (d : Dtype) (q : ℚ) : ℚ :=
  match d with
  | .float64 | .float32 | .float16 => q
  | .int64 => (signedWrap 64 (truncToward0 q) : ℤ)
  | .int32 => (signedWrap 32 (truncToward0 q) : ℤ)
  | .int16 => (signedWrap 16 (truncToward0 q) : ℤ)
  | .int8 => (signedWrap 8 (truncToward0 q) : ℤ)
  | .uint64 => (unsignedWrap 64 (truncToward0 q) : ℤ)
  | .uint32 => (unsignedWrap 32 (truncToward0 q) : ℤ)
  | .uint16 => (unsignedWrap 16 (truncToward0 q) : ℤ)
  | .uint8 => (unsignedWrap 8 (truncToward0 q) : ℤ)
  | .boolT => if q = 0 then 0 else 1
  | .unicode => q

/-- Array contents: either a flat 1-D sequence or a 2-D row layout (the result
of `reshape((-1, nchannel)).transpose()`). -/
inductive ArrData where
  | flat (xs : List ℚ)
  | mat (rows : List (List ℚ))
  deriving DecidableEq, Repr

/-- `ndarray.size`: total number of elements. -/
def arrSize : ArrData → Nat
  | .flat xs => xs.length
  | .mat rows => (rows.map List.length).sum

/-- Model of `numpy.ndarray`: an object identity, the identity of the buffer
that owns the underlying memory (a view shares the `base` of the array it was
derived from), the dtype, and the element data. -/
structure PyArr where
  id : Nat
  base : Nat
  dtype : Dtype
  data : ArrData
  deriving DecidableEq, Repr

/-- The `out_type` argument: omitted (`None`), a numpy dtype, or a string. -/
inductive OutTypeArg where
  | none
  | dt (d : Dtype)
  | str (s : String)
  deriving DecidableEq, Repr

/-- Source lines 69-74.  `None` defaults to the input dtype.  A string argument
hits the slip at line 72, `out_type = numpy.dtype(str)`, which yields the
unicode string dtype whatever the string said. -/
def resolve_out_type (out_type : OutTypeArg) (array_dtype : Dtype) : Dtype :=
  match out_type with
  | .none => array_dtype
  | .dt d => d
  | .str _ => .unicode

/-- Behaviour of the spawned ffmpeg subprocess, supplied as an oracle:
either `communicate` raised `TimeoutExpired` (carrying the stderr text the
post-kill `communicate()` drains), or the process completed with an exit
status, an optional decoded stdout sample stream and a stderr text. -/
inductive ProcBehavior where
  | timeoutExpired (stderr_after_kill : String)
  | completed (returncode : Int) (stdout : Option (List ℚ)) (stderr : String)
  deriving DecidableEq, Repr

/-- Observable outcome of one `audio_ffmpeg` call. -/
structure RunTrace where
  /-- whether `subprocess.Popen` was reached -/
  spawned : Bool
  /-- the command line built at source lines 77-80, when reached -/
  command : Option (List String)
  /-- whether `p.kill()` ran (timeout path, line 94) -/
  killed : Bool
  /-- whether the post-kill `p.communicate()` drained the pipes (line 95) -/
  drained : Bool
  /-- `base` identities of every buffer written in place during the call -/
  mutatedBases : List Nat
  /-- the returned array, or the Python exception raised -/
  result : Except PyErr PyArr

/-- Python's `sep.join(tokens)`. -/
def pyJoin (sep : String) : List String → String
  | [] => ""
  | [x] => x
  | x :: y :: rest => x ++ sep ++ pyJoin sep (y :: rest)

/-- `str` of the `timeout` argument as interpolated into f-strings.  The exact
float formatting is abstracted by `toString` on `ℚ`. -/
def pyShowOptQ : Option ℚ → String
  | some q => toString q
  | Option.none => "None"

/-- Source lines 77-80: the full ordered ffmpeg argument list. -/
def build_command (format_string : String) (sampling_rate nchannel : Int)
    (before after : List String) : List String :=
  ["ffmpeg", "-f", format_string, "-ar", toString sampling_rate,
   "-ac", toString nchannel]
    ++ before ++ ["-i", "pipe:0"] ++ after
    ++ ["-f", format_string, "-ar", toString sampling_rate,
        "-ac", toString nchannel, "-"]

/-- Source line 117, `audio.reshape((-1, nchannel)).transpose()`:
`reshape` fails unless the flat length is divisible by `c`; the transposed
result has `c` rows, and entry `(i, t)` of the transpose is entry `(t, i)` of
the reshape, i.e. flat element `t * c + i`. -/
def reshape_transpose (c : Nat) (xs : List ℚ) : Except PyErr (List (List ℚ)) :=
  if xs.length % c = 0 then
    .ok ((List.range c).map fun i =>
      (List.range (xs.length / c)).map fun t => xs.getD (t * c + i) 0)
  else
    .error (.valueError ("cannot reshape array of size " ++ toString xs.length
      ++ " into shape (-1," ++ toString c ++ ")"))

/-- Source lines 114-130, the result decoder.  `m` bounds every object/base
identity the caller's array can refer to, so identities above `m` model fresh
allocations.  `numpy.fromstring` allocates a fresh flat buffer (id `m+1`),
`.astype` copies into another fresh buffer (id `m+2`), and
`reshape(...).transpose()` produces views (ids `m+3`, `m+4`) sharing base
`m+2`.  Source line 123 reads `normalize`, a name defined nowhere, so when the
output dtype is floating point (and the decoded array is non-empty) CPython
raises `NameError` before any peak computation; the in-place division at line
126 (the only write in the function) is unreachable. -/
def decode_result (array : PyArr) (out_t : Dtype) (nchannel : Int)
    (raw : List ℚ) : Except PyErr PyArr :=
  let m := max array.id array.base
  let audio : PyArr :=
    { id := m + 2, base := m + 2, dtype := out_t,
      data := .flat (raw.map (astypeVal out_t)) }
  let reshaped : Except PyErr PyArr :=
    if 1 < nchannel then
      match reshape_transpose nchannel.toNat (raw.map (astypeVal out_t)) with
      | .error e => .error e
      | .ok rows => .ok { id := m + 4, base := m + 2, dtype := out_t,
                          data := .mat rows }
    else .ok audio
  match reshaped with
  | .error e => .error e
  | .ok audio2 =>
    if arrSize audio2.data = 0 then .ok audio2
    else if out_t.kind = 'f' then .error (.nameError "normalize")
    else .ok audio2

/-- Source lines 28-130, `audio_ffmpeg`.  The `shutil.which` probe and the
`isinstance` validations (lines 50-68) concern the environment and Python-level
argument typing and are outside the typed model; `verbose` printing of the
command (line 88) is a side effect with no bearing on the claims. -/
def audio_ffmpeg (array : PyArr) (nchannel sampling_rate : Int)
    (before_input_options after_input_options : Option (List String))
    (out_type : OutTypeArg) (verbose : Bool) (timeout : Option ℚ)
    (proc : ProcBehavior) : RunTrace :=
  let after := after_input_options.getD []
  let before := before_input_options.getD []
  let out_t := resolve_out_type out_type array.dtype
  match get_format array.dtype with
  | .error e =>
      { spawned := false, command := Option.none, killed := false,
        drained := false, mutatedBases := [], result := .error e }
  | .ok format_string =>
    let command := build_command format_string sampling_rate nchannel before after
    match proc with
    | .timeoutExpired stderr_after_kill =>
      let mes :=
        if verbose then
          pyJoin ("TimeoutExpired: " ++ pyShowOptQ timeout ++ "[s]. " ++ " ")
            command
        else
          "TimeoutExpired: " ++ pyShowOptQ timeout ++ "[s]. "
            ++ pyJoin " " command ++ "\n" ++ stderr_after_kill
      { spawned := true, command := some command, killed := true,
        drained := true, mutatedBases := [], result := .error (.runtimeError mes) }
    | .completed returncode stdout stderr_text =>
      if returncode ≠ 0 ∨ stdout = Option.none then
        let mes :=
          if verbose then pyJoin " " command
          else pyJoin " " command ++ "\n" ++ stderr_text
        { spawned := true, command := some command, killed := false,
          drained := false, mutatedBases := [], result := .error (.runtimeError mes) }
      else
        { spawned := true, command := some command, killed := false,
          drained := false, mutatedBases := [],
          result := decode_result array out_t nchannel (stdout.getD []) }

/-- Source lines 133-164, `audio_atempo`: build the after-input filter options
from the tempo factor and delegate to `audio_ffmpeg`.  The textual rendering of
the float `tempo` in the f-string is abstracted by `toString` on `ℚ`. -/
def audio_atempo (array : PyArr) (tempo : ℚ) (nchannel sampling_rate : Int)
    (out_type : OutTypeArg) (verbose : Bool) (timeout : Option ℚ)
    (proc : ProcBehavior) : RunTrace :=
  let options : List String :=
    if tempo = 1 then [] else ["-af", "atempo=" ++ toString tempo]
  audio_ffmpeg array nchannel sampling_rate Option.none (some options)
    out_type verbose timeout proc

/-- Source lines 167-196, `audio_trim`: delegate to `audio_ffmpeg` with
`-ss`/`-t` after-input options. -/
def audio_trim (array : PyArr) (time_offset duration : ℚ)
    (nchannel sampling_rate : Int) (out_type : OutTypeArg) (verbose : Bool)
    (timeout : Option ℚ) (proc : ProcBehavior) : RunTrace :=
  audio_ffmpeg array nchannel sampling_rate Option.none
    (some ["-ss", toString time_offset, "-t", toString duration])
    out_type verbose timeout proc

/-- Substring containment, used to state that an error message embeds a given
piece of text. -/
def strIn (sub s : String) : Prop := sub.data <:+: s.data

instance (sub s : String) : Decidable (strIn sub s) :=
  inferInstanceAs (Decidable (sub.data <:+: s.data))

/-- Does a command-line token encode an atempo filter value? -/
def isTempoOpt (s : String) : Bool := List.isPrefixOf "atempo=".data s.data

/-! ## Helper lemmas -/

lemma isPrefixOf_append_self (l r : List Char) :
    List.isPrefixOf l (l ++ r) = true := by
  induction l with
  | nil => simp [List.isPrefixOf]
  | cons a as ih => simp [List.isPrefixOf, ih]

lemma strIn_intro {sub s : String} (pre post : List Char)
    (h : s.data = pre ++ sub.data ++ post) : strIn sub s := ⟨pre, post, h.symm⟩

lemma get_format_unsupported :
    ∀ d : Dtype, d ∉ format_strings.map Prod.fst →
      get_format d = .error (.runtimeError ("Not supported type: " ++ dtypeName d)) := by
  decide

lemma get_format_ok_cases (d : Dtype) (f : String) (h : get_format d = .ok f) :
    d ∉ format_strings.map Prod.fst → False := by
  intro hd
  rw [get_format_unsupported d hd] at h
  exact Except.noConfusion h

/-- The raw-format tags never look like an atempo filter token. -/
lemma get_format_ok_not_tempo (d : Dtype) (f : String) (h : get_format d = .ok f) :
    isTempoOpt f = false := by
  have hall : ∀ d' : Dtype, isTempoOpt ((get_format d').toOption.getD "") = false := by
    decide
  have hd := hall d
  rw [h] at hd
  exact hd

/-- Every `.ok` outcome of the result decoder carries the requested output
dtype and lives in freshly allocated storage: its object identity and its
base-buffer identity both exceed `max array.id array.base`. -/
lemma decode_result_ok (array : PyArr) (out_t : Dtype) (nchannel : Int)
    (raw : List ℚ) (arr : PyArr) (h : decode_result array out_t nchannel raw = .ok arr) :
    arr.dtype = out_t ∧
    arr.base = max array.id array.base + 2 ∧
    (arr.id = max array.id array.base + 2 ∨ arr.id = max array.id array.base + 4) := by
  simp only [decode_result] at h
  split at h
  · exact absurd h (by simp)
  case h_2 audio2 heq =>
    split at h
    · injection h with h2
      subst h2
      split at heq
      · split at heq
        · exact absurd heq (by simp)
        · injection heq with h3
          subst h3
          exact ⟨rfl, rfl, Or.inr rfl⟩
      · injection heq with h3
        subst h3
        exact ⟨rfl, rfl, Or.inl rfl⟩
    · split at h
      · exact absurd h (by simp)
      · injection h with h2
        subst h2
        split at heq
        · split at heq
          · exact absurd heq (by simp)
          · injection heq with h3
            subst h3
            exact ⟨rfl, rfl, Or.inr rfl⟩
        · injection heq with h3
          subst h3
          exact ⟨rfl, rfl, Or.inl rfl⟩

/-- Every `.ok` outcome of `audio_ffmpeg` comes from the result decoder. -/
lemma audio_ffmpeg_ok (array : PyArr) (nchannel sampling_rate : Int)
    (bo ao : Option (List String)) (ot : OutTypeArg) (verbose : Bool)
    (timeout : Option ℚ) (proc : ProcBehavior) (arr : PyArr)
    (h : (audio_ffmpeg array nchannel sampling_rate bo ao ot verbose timeout
      proc).result = .ok arr) :
    arr.dtype = resolve_out_type ot array.dtype ∧
    arr.base = max array.id array.base + 2 ∧
    (arr.id = max array.id array.base + 2 ∨ arr.id = max array.id array.base + 4) := by
  simp only [audio_ffmpeg] at h
  split at h
  · exact absurd h (by simp)
  · split at h
    · exact absurd h (by simp)
    · split at h
      · exact absurd h (by simp)
      · exact decode_result_ok _ _ _ _ _ h

/-- No branch of `audio_ffmpeg` records an in-place buffer write: the only
in-place write in the source (line 126) sits behind the `NameError` at line
123 and is unreachable. -/
lemma audio_ffmpeg_no_mutation (array : PyArr) (nchannel sampling_rate : Int)
    (bo ao : Option (List String)) (ot : OutTypeArg) (verbose : Bool)
    (timeout : Option ℚ) (proc : ProcBehavior) :
    (audio_ffmpeg array nchannel sampling_rate bo ao ot verbose timeout
      proc).mutatedBases = [] := by
  simp only [audio_ffmpeg]
  split
  · rfl
  · split
    · rfl
    · split
      · rfl
      · rfl

/-! ## Claims -/

/-- C1: the Format Mapper `get_format` returns the documented raw-format tag
for each of the five supported element types (float64, float32, int16, int32,
uint32) and fails with the Unsupported-Type `RuntimeError` for every element
type outside this set.  Purity and determinism hold by construction: it is a
total Lean function of its argument. -/
theorem get_format_spec :
    (get_format .float64 = .ok "f64le" ∧ get_format .float32 = .ok "f32le" ∧
     get_format .int16 = .ok "s16le" ∧ get_format .int32 = .ok "s32le" ∧
     get_format .uint32 = .ok "u32le") ∧
    ∀ d : Dtype, d ∉ format_strings.map Prod.fst →
      get_format d = .error (.runtimeError ("Not supported type: " ++ dtypeName d)) := by
  decide

/-- C1 witness: `int8` lies outside the supported set and is rejected. -/
theorem get_format_spec_witness :
    (Dtype.int8 ∉ format_strings.map Prod.fst) ∧
    get_format .int8 = .error (.runtimeError ("Not supported type: " ++ dtypeName .int8)) :=
  ⟨by decide, get_format_spec.2 .int8 (by decide)⟩

/-- C2 (code bug): on an all-zero float64 buffer whose subprocess round-trip
succeeds and returns all-zero samples, the claim expects normalization to be
skipped and the all-zero buffer returned; the code instead raises `NameError`
because line 123 reads the undefined name `normalize` whenever the output
dtype is floating point and the decoded array is non-empty. -/
theorem normalize_name_error_on_zero_float :
    (audio_ffmpeg ⟨0, 0, .float64, .flat [0, 0, 0, 0]⟩ 1 16000 Option.none
      Option.none .none false Option.none
      (.completed 0 (some [0, 0, 0, 0]) "")).result
      = .error (.nameError "normalize") := by
  decide

/-- C3 counterexample: an invocation requesting the unsupported output element
type `int8` (on a supported `int16` input) does not fail with an
Unsupported-Type error and does not fail before the subprocess is spawned: the
subprocess is spawned and the call returns normally, because source line 76
validates only the input dtype. -/
theorem out_type_unchecked_cex :
    (audio_ffmpeg ⟨0, 0, .int16, .flat [0]⟩ 1 16000 Option.none Option.none
        (.dt .int8) false Option.none (.completed 0 (some []) "")).spawned = true ∧
    (audio_ffmpeg ⟨0, 0, .int16, .flat [0]⟩ 1 16000 Option.none Option.none
        (.dt .int8) false Option.none (.completed 0 (some []) "")).result
      = .ok ⟨2, 2, .int8, .flat []⟩ := by
  exact ⟨rfl, by decide⟩

/-- C3 amended: for every invocation whose INPUT element type is not in the
supported set of five element types, the operation fails fast with an
Unsupported-Type error before any subprocess is spawned (the requested output
element type is never checked against the supported set). -/
theorem unsupported_input_fails_before_spawn (array : PyArr)
    (nchannel sampling_rate : Int) (bo ao : Option (List String))
    (ot : OutTypeArg) (verbose : Bool) (timeout : Option ℚ) (proc : ProcBehavior)
    (h : array.dtype ∉ format_strings.map Prod.fst) :
    (audio_ffmpeg array nchannel sampling_rate bo ao ot verbose timeout
        proc).spawned = false ∧
    (audio_ffmpeg array nchannel sampling_rate bo ao ot verbose timeout
        proc).result
      = .error (.runtimeError ("Not supported type: " ++ dtypeName array.dtype)) := by
  have h' := get_format_unsupported array.dtype h
  simp [audio_ffmpeg, h']

/-- C3 amended witness: a `bool`-typed input buffer is rejected with no
subprocess spawned. -/
theorem unsupported_input_fails_before_spawn_witness :
    (Dtype.boolT ∉ format_strings.map Prod.fst) ∧
    ((audio_ffmpeg ⟨0, 0, .boolT, .flat []⟩ 1 16000 Option.none Option.none
        .none false Option.none (.completed 0 (some []) "")).spawned = false ∧
     (audio_ffmpeg ⟨0, 0, .boolT, .flat []⟩ 1 16000 Option.none Option.none
        .none false Option.none (.completed 0 (some []) "")).result
       = .error (.runtimeError ("Not supported type: " ++ dtypeName .boolT))) :=
  ⟨by decide,
   unsupported_input_fails_before_spawn _ _ _ _ _ _ _ _ _ (by decide)⟩

/-- C9: when the `out_type` argument is omitted (`None`), any successfully
returned buffer carries the input buffer's element type (source line 70
defaults `out_type` to `array.dtype`, and line 114 converts to it). -/
theorem default_out_type_preserves_dtype (array : PyArr)
    (nchannel sampling_rate : Int) (bo ao : Option (List String))
    (verbose : Bool) (timeout : Option ℚ) (proc : ProcBehavior) (arr : PyArr)
    (h : (audio_ffmpeg array nchannel sampling_rate bo ao OutTypeArg.none
      verbose timeout proc).result = .ok arr) :
    arr.dtype = array.dtype :=
  (audio_ffmpeg_ok _ _ _ _ _ _ _ _ _ _ h).1

/-- C9 witness: an omitted `out_type` on an `int16` input yields an `int16`
result. -/
theorem default_out_type_preserves_dtype_witness :
    ((audio_ffmpeg ⟨0, 0, .int16, .flat [0]⟩ 1 16000 Option.none Option.none
        OutTypeArg.none false Option.none (.completed 0 (some [3]) "")).result
      = .ok ⟨2, 2, .int16, .flat [3]⟩) ∧
    (⟨2, 2, .int16, .flat [3]⟩ : PyArr).dtype = (⟨0, 0, .int16, .flat [0]⟩ : PyArr).dtype :=
  ⟨by decide,
   default_out_type_preserves_dtype ⟨0, 0, .int16, .flat [0]⟩ 1 16000
     Option.none Option.none false Option.none (.completed 0 (some [3]) "")
     ⟨2, 2, .int16, .flat [3]⟩ (by decide)⟩

/-- C10: no operation (transform, tempo change, or trim) performs an in-place
write to any buffer — in particular the caller's input buffer is untouched on
every path, successful or failing — and every successfully returned buffer is
freshly allocated: both its object identity and its base-buffer identity
differ from the input's. -/
theorem no_input_mutation_fresh_result (array : PyArr)
    (tempo time_offset duration : ℚ) (nchannel sampling_rate : Int)
    (bo ao : Option (List String)) (ot : OutTypeArg) (verbose : Bool)
    (timeout : Option ℚ) (proc : ProcBehavior) :
    ((audio_ffmpeg array nchannel sampling_rate bo ao ot verbose timeout
        proc).mutatedBases = [] ∧
      ∀ arr, (audio_ffmpeg array nchannel sampling_rate bo ao ot verbose
          timeout proc).result = .ok arr →
        arr.id ≠ array.id ∧ arr.base ≠ array.base) ∧
    ((audio_atempo array tempo nchannel sampling_rate ot verbose timeout
        proc).mutatedBases = [] ∧
      ∀ arr, (audio_atempo array tempo nchannel sampling_rate ot verbose
          timeout proc).result = .ok arr →
        arr.id ≠ array.id ∧ arr.base ≠ array.base) ∧
    ((audio_trim array time_offset duration nchannel sampling_rate ot verbose
        timeout proc).mutatedBases = [] ∧
      ∀ arr, (audio_trim array time_offset duration nchannel sampling_rate ot
          verbose timeout proc).result = .ok arr →
        arr.id ≠ array.id ∧ arr.base ≠ array.base) := by
  have key : ∀ (bo' ao' : Option (List String)) (arr : PyArr),
      (audio_ffmpeg array nchannel sampling_rate bo' ao' ot verbose timeout
        proc).result = .ok arr →
      arr.id ≠ array.id ∧ arr.base ≠ array.base := by
    intro bo' ao' arr h
    obtain ⟨-, hbase, hid⟩ := audio_ffmpeg_ok _ _ _ _ _ _ _ _ _ _ h
    have h1 := le_max_left array.id array.base
    have h2 := le_max_right array.id array.base
    constructor
    · rcases hid with h3 | h3 <;> omega
    · omega
  refine ⟨⟨audio_ffmpeg_no_mutation _ _ _ _ _ _ _ _ _, key bo ao⟩, ⟨?_, ?_⟩, ⟨?_, ?_⟩⟩
  · simp only [audio_atempo]
    exact audio_ffmpeg_no_mutation _ _ _ _ _ _ _ _ _
  · simp only [audio_atempo]
    exact key _ _
  · simp only [audio_trim]
    exact audio_ffmpeg_no_mutation _ _ _ _ _ _ _ _ _
  · simp only [audio_trim]
    exact key _ _

/-- C10 witness: a successful transform of an `int16` buffer returns a buffer
with fresh object and base identities, with no in-place write recorded. -/
theorem no_input_mutation_fresh_result_witness :
    ((audio_ffmpeg ⟨0, 0, .int16, .flat [5]⟩ 1 16000 Option.none Option.none
        .none false Option.none (.completed 0 (some [5, 6]) "")).result
      = .ok ⟨2, 2, .int16, .flat [5, 6]⟩) ∧
    ((⟨2, 2, .int16, .flat [5, 6]⟩ : PyArr).id ≠ (⟨0, 0, .int16, .flat [5]⟩ : PyArr).id ∧
     (⟨2, 2, .int16, .flat [5, 6]⟩ : PyArr).base ≠ (⟨0, 0, .int16, .flat [5]⟩ : PyArr).base) :=
  ⟨by decide,
   (no_input_mutation_fresh_result ⟨0, 0, .int16, .flat [5]⟩ 1 0 0 1 16000
      Option.none Option.none .none false Option.none
      (.completed 0 (some [5, 6]) "")).1.2 ⟨2, 2, .int16, .flat [5, 6]⟩
      (by decide)⟩

/-- C8: whenever the command line is built (that is, whenever the input dtype
passes the Format Mapper), it has exactly the ordered shape: tool name; raw
input format/rate/channel declarations; the before-input options in order; the
input-source declaration naming standard input (`-i pipe:0`); the after-input
options in order; then raw output format/rate/channel declarations equal to
the input ones, with output directed to standard output (`-`). -/
theorem command_shape_spec (array : PyArr) (nchannel sampling_rate : Int)
    (bo ao : Option (List String)) (ot : OutTypeArg) (verbose : Bool)
    (timeout : Option ℚ) (proc : ProcBehavior) (fmt : String)
    (hfmt : get_format array.dtype = .ok fmt) :
    (audio_ffmpeg array nchannel sampling_rate bo ao ot verbose timeout
        proc).command
      = some (["ffmpeg"]
          ++ ["-f", fmt, "-ar", toString sampling_rate, "-ac", toString nchannel]
          ++ bo.getD [] ++ ["-i", "pipe:0"] ++ ao.getD []
          ++ ["-f", fmt, "-ar", toString sampling_rate, "-ac", toString nchannel]
          ++ ["-"]) := by
  simp only [audio_ffmpeg, hfmt]
  cases proc with
  | timeoutExpired s => simp [build_command]
  | completed rc so st => split <;> split <;> simp [build_command]

/-- C8 witness: the command built for an `int16` input at 16 kHz mono with one
before-input and one after-input option. -/
theorem command_shape_spec_witness :
    get_format Dtype.int16 = .ok "s16le" ∧
    (audio_ffmpeg ⟨0, 0, .int16, .flat [0]⟩ 1 16000 (some ["-v", "0"])
        (some ["-af", "atempo=2"]) .none false Option.none
        (.completed 0 (some []) "")).command
      = some (["ffmpeg"]
          ++ ["-f", "s16le", "-ar", "16000", "-ac", "1"]
          ++ ["-v", "0"] ++ ["-i", "pipe:0"] ++ ["-af", "atempo=2"]
          ++ ["-f", "s16le", "-ar", "16000", "-ac", "1"]
          ++ ["-"]) :=
  ⟨rfl,
   command_shape_spec ⟨0, 0, .int16, .flat [0]⟩ 1 16000 (some ["-v", "0"])
     (some ["-af", "atempo=2"]) .none false Option.none
     (.completed 0 (some []) "") "s16le" rfl⟩

set_option maxRecDepth 100000 in
/-- C4 counterexample: a subprocess exiting with status 7 (input `int16`
buffer, default options, not verbose, stderr text `boom`) makes the call fail
with a `RuntimeError` whose message is the joined command line plus the stderr
text — the digit `7` appears nowhere in it, so the message does not embed the
exit status, contrary to the claim. -/
theorem process_failure_no_exit_status_cex :
    (audio_ffmpeg ⟨0, 0, .int16, .flat [0]⟩ 1 16000 Option.none Option.none
        .none false Option.none (.completed 7 (some []) "boom")).result
      = .error (.runtimeError
          ("ffmpeg -f s16le -ar 16000 -ac 1 -i pipe:0 -f s16le -ar 16000 -ac 1 -\nboom")) ∧
    ¬ strIn "7"
        "ffmpeg -f s16le -ar 16000 -ac 1 -i pipe:0 -f s16le -ar 16000 -ac 1 -\nboom" := by
  constructor
  · decide
  · decide

/-- C4 amended: whenever the spawned subprocess exits with a non-zero status
or produces no output stream, the transform fails with a Process-Failure
`RuntimeError` whose message is the joined command line, followed — exactly
when verbose mode is not active — by a newline and the diagnostic (stderr)
text; the exit status itself is not embedded in the message. -/
theorem process_failure_message_spec (array : PyArr)
    (nchannel sampling_rate : Int) (bo ao : Option (List String))
    (ot : OutTypeArg) (verbose : Bool) (timeout : Option ℚ)
    (returncode : Int) (stdout : Option (List ℚ)) (stderr_text : String)
    (fmt : String) (hfmt : get_format array.dtype = .ok fmt)
    (hfail : returncode ≠ 0 ∨ stdout = Option.none) :
    (audio_ffmpeg array nchannel sampling_rate bo ao ot verbose timeout
        (.completed returncode stdout stderr_text)).result
      = .error (.runtimeError
          (if verbose then
            pyJoin " " (build_command fmt sampling_rate nchannel (bo.getD [])
              (ao.getD []))
          else
            pyJoin " " (build_command fmt sampling_rate nchannel (bo.getD [])
              (ao.getD [])) ++ "\n" ++ stderr_text)) ∧
    (audio_ffmpeg array nchannel sampling_rate bo ao ot verbose timeout
        (.completed returncode stdout stderr_text)).spawned = true := by
  simp only [audio_ffmpeg, hfmt]
  rw [if_pos hfail]
  exact ⟨rfl, rfl⟩

/-- C4 amended witness: exit status 7, not verbose. -/
theorem process_failure_message_spec_witness :
    get_format Dtype.int16 = .ok "s16le" ∧
    ((7 : Int) ≠ 0 ∨ (some ([] : List ℚ)) = Option.none) ∧
    ((audio_ffmpeg ⟨0, 0, .int16, .flat [0]⟩ 1 16000 Option.none Option.none
        .none false Option.none (.completed 7 (some []) "boom")).result
      = .error (.runtimeError
          (pyJoin " " (build_command "s16le" 16000 1 [] []) ++ "\n" ++ "boom")) ∧
     (audio_ffmpeg ⟨0, 0, .int16, .flat [0]⟩ 1 16000 Option.none Option.none
        .none false Option.none (.completed 7 (some []) "boom")).spawned = true) :=
  ⟨rfl, Or.inl (by decide),
   process_failure_message_spec ⟨0, 0, .int16, .flat [0]⟩ 1 16000 Option.none
     Option.none .none false Option.none 7 (some []) "boom" "s16le" rfl
     (Or.inl (by decide))⟩

lemma strIn_trans {a b c : String} (h1 : strIn a b) (h2 : strIn b c) :
    strIn a c := List.IsInfix.trans h1 h2

/-- The join separator is embedded in the join of any built command line
(every built command has at least two tokens). -/
lemma sep_strIn_pyJoin_build (sep fmt : String) (sr nc : Int)
    (b a : List String) :
    strIn sep (pyJoin sep (build_command fmt sr nc b a)) := by
  have hrw : pyJoin sep (build_command fmt sr nc b a)
      = "ffmpeg" ++ sep ++ pyJoin sep ("-f" :: fmt :: "-ar" :: toString sr
          :: "-ac" :: toString nc :: (b ++ ["-i", "pipe:0"] ++ a
          ++ ["-f", fmt, "-ar", toString sr, "-ac", toString nc, "-"])) := rfl
  rw [hrw]
  exact strIn_intro "ffmpeg".data
    (pyJoin sep ("-f" :: fmt :: "-ar" :: toString sr :: "-ac" :: toString nc
      :: (b ++ ["-i", "pipe:0"] ++ a
      ++ ["-f", fmt, "-ar", toString sr, "-ac", toString nc, "-"]))).data
    (by simp)

/-- C5: if a timeout is configured and the subprocess times out, the process
is killed, its remaining streams are drained, and the call fails with a
`RuntimeError` whose message embeds the `TimeoutExpired` tag and the elapsed
bound, and — when verbose mode is not active — the captured diagnostic
(stderr) text. -/
theorem timeout_kill_drain_message (array : PyArr)
    (nchannel sampling_rate : Int) (bo ao : Option (List String))
    (ot : OutTypeArg) (verbose : Bool) (t : ℚ) (serr : String) (fmt : String)
    (hfmt : get_format array.dtype = .ok fmt) :
    (audio_ffmpeg array nchannel sampling_rate bo ao ot verbose (some t)
        (.timeoutExpired serr)).spawned = true ∧
    (audio_ffmpeg array nchannel sampling_rate bo ao ot verbose (some t)
        (.timeoutExpired serr)).killed = true ∧
    (audio_ffmpeg array nchannel sampling_rate bo ao ot verbose (some t)
        (.timeoutExpired serr)).drained = true ∧
    ∃ mes, (audio_ffmpeg array nchannel sampling_rate bo ao ot verbose (some t)
        (.timeoutExpired serr)).result = .error (.runtimeError mes) ∧
      strIn "TimeoutExpired: " mes ∧ strIn (toString t) mes ∧
      (verbose = false → strIn serr mes) := by
  cases verbose with
  | true =>
    have htr : audio_ffmpeg array nchannel sampling_rate bo ao ot true (some t)
        (.timeoutExpired serr)
        = { spawned := true,
            command := some (build_command fmt sampling_rate nchannel
              (bo.getD []) (ao.getD [])),
            killed := true, drained := true, mutatedBases := [],
            result := .error (.runtimeError
              (pyJoin ("TimeoutExpired: " ++ pyShowOptQ (some t) ++ "[s]. " ++ " ")
                (build_command fmt sampling_rate nchannel (bo.getD [])
                  (ao.getD [])))) } := by
      simp only [audio_ffmpeg, hfmt]
      rfl
    rw [htr]
    refine ⟨rfl, rfl, rfl, _, rfl, ?_, ?_, fun h => Bool.noConfusion h⟩
    · refine strIn_trans ?_ (sep_strIn_pyJoin_build _ _ _ _ _ _)
      exact strIn_intro []
        ((pyShowOptQ (some t)).data ++ "[s]. ".data ++ " ".data) (by simp)
    · refine strIn_trans ?_ (sep_strIn_pyJoin_build _ _ _ _ _ _)
      exact strIn_intro "TimeoutExpired: ".data ("[s]. ".data ++ " ".data)
        (by simp [pyShowOptQ])
  | false =>
    have htr : audio_ffmpeg array nchannel sampling_rate bo ao ot false (some t)
        (.timeoutExpired serr)
        = { spawned := true,
            command := some (build_command fmt sampling_rate nchannel
              (bo.getD []) (ao.getD [])),
            killed := true, drained := true, mutatedBases := [],
            result := .error (.runtimeError
              ("TimeoutExpired: " ++ pyShowOptQ (some t) ++ "[s]. "
                ++ pyJoin " " (build_command fmt sampling_rate nchannel
                    (bo.getD []) (ao.getD []))
                ++ "\n" ++ serr)) } := by
      simp only [audio_ffmpeg, hfmt]
      rfl
    rw [htr]
    refine ⟨rfl, rfl, rfl, _, rfl, ?_, ?_, fun _ => ?_⟩
    · exact strIn_intro []
        ((pyShowOptQ (some t)).data ++ "[s]. ".data
          ++ (pyJoin " " (build_command fmt sampling_rate nchannel (bo.getD [])
              (ao.getD []))).data ++ "\n".data ++ serr.data) (by simp)
    · exact strIn_intro "TimeoutExpired: ".data
        ("[s]. ".data
          ++ (pyJoin " " (build_command fmt sampling_rate nchannel (bo.getD [])
              (ao.getD []))).data ++ "\n".data ++ serr.data)
        (by simp [pyShowOptQ])
    · exact strIn_intro
        ("TimeoutExpired: ".data ++ (pyShowOptQ (some t)).data ++ "[s]. ".data
          ++ (pyJoin " " (build_command fmt sampling_rate nchannel (bo.getD [])
              (ao.getD []))).data ++ "\n".data) [] (by simp)

/-- C5 witness: a 1-second timeout expiring on an `int16` input, not
verbose. -/
theorem timeout_kill_drain_message_witness :
    get_format Dtype.int16 = .ok "s16le" ∧
    ((audio_ffmpeg ⟨0, 0, .int16, .flat [0]⟩ 1 16000 Option.none Option.none
        .none false (some 1) (.timeoutExpired "terr")).spawned = true ∧
     (audio_ffmpeg ⟨0, 0, .int16, .flat [0]⟩ 1 16000 Option.none Option.none
        .none false (some 1) (.timeoutExpired "terr")).killed = true ∧
     (audio_ffmpeg ⟨0, 0, .int16, .flat [0]⟩ 1 16000 Option.none Option.none
        .none false (some 1) (.timeoutExpired "terr")).drained = true ∧
     ∃ mes, (audio_ffmpeg ⟨0, 0, .int16, .flat [0]⟩ 1 16000 Option.none
        Option.none .none false (some 1) (.timeoutExpired "terr")).result
          = .error (.runtimeError mes) ∧
       strIn "TimeoutExpired: " mes ∧ strIn (toString (1 : ℚ)) mes ∧
       (false = false → strIn "terr" mes)) :=
  ⟨rfl,
   timeout_kill_drain_message ⟨0, 0, .int16, .flat [0]⟩ 1 16000 Option.none
     Option.none .none false 1 "terr" "s16le" rfl⟩

/-- Whenever the input dtype passes the Format Mapper, the built command line
is recorded in the trace, whatever the subprocess then does. -/
lemma audio_ffmpeg_command (array : PyArr) (nchannel sampling_rate : Int)
    (bo ao : Option (List String)) (ot : OutTypeArg) (verbose : Bool)
    (timeout : Option ℚ) (proc : ProcBehavior) (fmt : String)
    (hfmt : get_format array.dtype = .ok fmt) :
    (audio_ffmpeg array nchannel sampling_rate bo ao ot verbose timeout
        proc).command
      = some (build_command fmt sampling_rate nchannel (bo.getD [])
          (ao.getD [])) := by
  simp only [audio_ffmpeg, hfmt]
  cases proc with
  | timeoutExpired s => rfl
  | completed rc so st => split <;> split <;> rfl

/-- C6: for every invocation with `nchannel > 1` whose subprocess succeeds, a
flat decoded sequence of length `nchannel * N` reshapes into `nchannel` rows
of length `N` (and any returned buffer carries exactly those rows), while a
flat length not divisible by `nchannel` makes the call fail with numpy's
reshape `ValueError`. -/
theorem multichannel_reshape_spec (array : PyArr)
    (nchannel sampling_rate : Int) (bo ao : Option (List String))
    (ot : OutTypeArg) (verbose : Bool) (timeout : Option ℚ) (raw : List ℚ)
    (serr : String) (fmt : String)
    (hfmt : get_format array.dtype = .ok fmt) (hch : 1 < nchannel) :
    (∀ N : Nat, raw.length = nchannel.toNat * N →
      ∃ rows,
        reshape_transpose nchannel.toNat
          (raw.map (astypeVal (resolve_out_type ot array.dtype))) = .ok rows ∧
        rows.length = nchannel.toNat ∧ (∀ r ∈ rows, r.length = N) ∧
        ∀ arr, (audio_ffmpeg array nchannel sampling_rate bo ao ot verbose
            timeout (.completed 0 (some raw) serr)).result = .ok arr →
          arr.data = .mat rows) ∧
    (¬ (nchannel.toNat ∣ raw.length) →
      (audio_ffmpeg array nchannel sampling_rate bo ao ot verbose timeout
          (.completed 0 (some raw) serr)).result
        = .error (.valueError ("cannot reshape array of size "
            ++ toString raw.length ++ " into shape (-1,"
            ++ toString nchannel.toNat ++ ")"))) := by
  have hres : (audio_ffmpeg array nchannel sampling_rate bo ao ot verbose
      timeout (.completed 0 (some raw) serr)).result
      = decode_result array (resolve_out_type ot array.dtype) nchannel raw := by
    simp only [audio_ffmpeg, hfmt]
    rw [if_neg (by simp)]
    rfl
  have hmaplen : (raw.map (astypeVal (resolve_out_type ot array.dtype))).length
      = raw.length := List.length_map _ _
  constructor
  · intro N hN
    have hc : 0 < nchannel.toNat := by omega
    have hmod : (raw.map (astypeVal (resolve_out_type ot array.dtype))).length
        % nchannel.toNat = 0 := by
      rw [hmaplen, hN]
      exact Nat.mul_mod_right _ _
    have hok : reshape_transpose nchannel.toNat
        (raw.map (astypeVal (resolve_out_type ot array.dtype)))
        = .ok ((List.range nchannel.toNat).map fun i =>
            (List.range ((raw.map (astypeVal (resolve_out_type ot
              array.dtype))).length / nchannel.toNat)).map fun t =>
              (raw.map (astypeVal (resolve_out_type ot array.dtype))).getD
                (t * nchannel.toNat + i) 0) := by
      unfold reshape_transpose
      rw [if_pos hmod]
    refine ⟨_, hok, ?_, ?_, ?_⟩
    · simp
    · intro r hr
      simp only [List.mem_map, List.mem_range] at hr
      obtain ⟨i, -, rfl⟩ := hr
      simp [hmaplen, hN, Nat.mul_div_cancel_left _ hc]
    · intro arr harr
      rw [hres] at harr
      simp only [decode_result] at harr
      rw [if_pos hch, hok] at harr
      split at harr
      · exact Except.noConfusion harr
      case h_2 audio2 heq =>
        injection heq with h3
        split at harr
        · injection harr with h2
          subst h2
          rw [← h3]
        · split at harr
          · exact Except.noConfusion harr
          · injection harr with h2
            subst h2
            rw [← h3]
  · intro hndvd
    have hmod : ¬ ((raw.map (astypeVal (resolve_out_type ot
        array.dtype))).length % nchannel.toNat = 0) := by
      rw [hmaplen]
      exact fun hh => hndvd (Nat.dvd_iff_mod_eq_zero.mpr hh)
    rw [hres]
    simp only [decode_result]
    rw [if_pos hch]
    have herr : reshape_transpose nchannel.toNat
        (raw.map (astypeVal (resolve_out_type ot array.dtype)))
        = .error (.valueError ("cannot reshape array of size "
            ++ toString raw.length ++ " into shape (-1,"
            ++ toString nchannel.toNat ++ ")")) := by
      unfold reshape_transpose
      rw [if_neg hmod, hmaplen]
    rw [herr]

/-- C6 witness: six samples over two channels deinterleave into two rows of
three. -/
theorem multichannel_reshape_spec_witness :
    get_format Dtype.int16 = .ok "s16le" ∧ (1 : Int) < 2 ∧
    ([(1 : ℚ), 2, 3, 4, 5, 6].length = (2 : Int).toNat * 3) ∧
    ∃ rows,
      reshape_transpose (2 : Int).toNat
        ([(1 : ℚ), 2, 3, 4, 5, 6].map (astypeVal (resolve_out_type .none
          Dtype.int16))) = .ok rows ∧
      rows.length = (2 : Int).toNat ∧ (∀ r ∈ rows, r.length = 3) ∧
      ∀ arr, (audio_ffmpeg ⟨0, 0, .int16, .flat [1, 2]⟩ 2 16000 Option.none
          Option.none .none false Option.none
          (.completed 0 (some [1, 2, 3, 4, 5, 6]) "")).result = .ok arr →
        arr.data = .mat rows :=
  ⟨rfl, by decide, by decide,
   (multichannel_reshape_spec ⟨0, 0, .int16, .flat [1, 2]⟩ 2 16000 Option.none
      Option.none .none false Option.none [1, 2, 3, 4, 5, 6] "" "s16le" rfl
      (by decide)).1 3 (by decide)⟩

lemma isTempoOpt_ffmpeg : isTempoOpt "ffmpeg" = false := by decide

lemma isTempoOpt_f : isTempoOpt "-f" = false := by decide

lemma isTempoOpt_arFlag : isTempoOpt "-ar" = false := by decide

lemma isTempoOpt_acFlag : isTempoOpt "-ac" = false := by decide

lemma isTempoOpt_iFlag : isTempoOpt "-i" = false := by decide

lemma isTempoOpt_pipe : isTempoOpt "pipe:0" = false := by decide

lemma isTempoOpt_dash : isTempoOpt "-" = false := by decide

lemma isTempoOpt_afFlag : isTempoOpt "-af" = false := by decide

lemma isTempoOpt_atempo (s : String) : isTempoOpt ("atempo=" ++ s) = true := by
  unfold isTempoOpt
  rw [String.data_append]
  exact isPrefixOf_append_self _ _

/-- C7: `audio_atempo` delegates entirely to `audio_ffmpeg`, passing no
before-input options and, as after-input options, nothing when `tempo = 1.0`
and exactly the pair `-af atempo=<tempo>` otherwise; consequently the built
command contains no atempo filter token for `tempo = 1.0` and exactly one for
any other tempo.  (The hypotheses on the rate and channel strings record that
a decimal integer rendering never starts with the letters `atempo=`.) -/
theorem atempo_option_spec (array : PyArr) (tempo : ℚ)
    (nchannel sampling_rate : Int) (ot : OutTypeArg) (verbose : Bool)
    (timeout : Option ℚ) (proc : ProcBehavior) (fmt : String)
    (hfmt : get_format array.dtype = .ok fmt)
    (har : isTempoOpt (toString sampling_rate) = false)
    (hac : isTempoOpt (toString nchannel) = false) :
    (audio_atempo array tempo nchannel sampling_rate ot verbose timeout proc
      = audio_ffmpeg array nchannel sampling_rate Option.none
          (some (if tempo = 1 then []
                 else ["-af", "atempo=" ++ toString tempo]))
          ot verbose timeout proc) ∧
    ∀ cmd, (audio_atempo array tempo nchannel sampling_rate ot verbose timeout
        proc).command = some cmd →
      List.countP (fun s => isTempoOpt s) cmd
        = if tempo = 1 then 0 else 1 := by
  have hfm := get_format_ok_not_tempo array.dtype fmt hfmt
  constructor
  · simp only [audio_atempo]
  · intro cmd hcmd
    have hcmd2 : (audio_atempo array tempo nchannel sampling_rate ot verbose
        timeout proc).command
        = some (build_command fmt sampling_rate nchannel []
            (if tempo = 1 then [] else ["-af", "atempo=" ++ toString tempo])) := by
      simp only [audio_atempo]
      exact audio_ffmpeg_command _ _ _ _ _ _ _ _ _ _ hfmt
    rw [hcmd2] at hcmd
    injection hcmd with hcmd3
    subst hcmd3
    by_cases ht : tempo = 1
    · simp [build_command, ht, List.countP_append, List.countP_cons,
        List.countP_nil, har, hac, hfm, isTempoOpt_ffmpeg, isTempoOpt_f,
        isTempoOpt_arFlag, isTempoOpt_acFlag, isTempoOpt_iFlag,
        isTempoOpt_pipe, isTempoOpt_dash]
    · simp [build_command, ht, List.countP_append, List.countP_cons,
        List.countP_nil, har, hac, hfm, isTempoOpt_ffmpeg, isTempoOpt_f,
        isTempoOpt_arFlag, isTempoOpt_acFlag, isTempoOpt_iFlag,
        isTempoOpt_pipe, isTempoOpt_dash, isTempoOpt_afFlag,
        isTempoOpt_atempo]

/-- C7 witness: tempo 2 on an `int16` input yields exactly one atempo token in
the built command. -/
theorem atempo_option_spec_witness :
    get_format Dtype.int16 = .ok "s16le" ∧
    isTempoOpt (toString (16000 : Int)) = false ∧
    isTempoOpt (toString (1 : Int)) = false ∧
    ∀ cmd, (audio_atempo ⟨0, 0, .int16, .flat [0]⟩ 2 1 16000 .none false
        Option.none (.completed 0 (some [0]) "")).command = some cmd →
      List.countP (fun s => isTempoOpt s) cmd = if (2 : ℚ) = 1 then 0 else 1 :=
  ⟨rfl, by decide, by decide,
   (atempo_option_spec ⟨0, 0, .int16, .flat [0]⟩ 2 1 16000 .none false
      Option.none (.completed 0 (some [0]) "") "s16le" rfl (by decide)
      (by decide)).2⟩

end PyAudioFFmpeg
